import Mathlib

/-!
Shallow embedding of the ENS name-operation encoder of this repository:
`transferName.makeFunctionData`, `deleteSubname.makeFunctionData` and
`registerName.makeFunctionData`, together with the name classifier and the
identifier-derivation helpers they call.  Keccak digests are represented
symbolically (the hash primitive is an external pure collaborator), call
payloads as a destination address plus a function name with its argument
list, and thrown errors as the `Except.error` branch.
-/

deriving instance DecidableEq for Except

namespace EnsEmbed

/-- Symbolic 256-bit digests: the zero word, `keccak` of the bytes of a
string (a label hash), and `keccak` of the concatenation of two digests
(the recursive node-hash step).  Collision resistance of keccak is modelled
by this free term algebra. -/
inductive Word256 where
  | zero : Word256
  | keccakStr : String → Word256
  | keccakCat : Word256 → Word256 → Word256
deriving DecidableEq

/-- `labelhash(label) = keccak(bytes(label))`. -/
def labelhash (label : String) : Word256 := .keccakStr label

/-- Node hash of a list of labels, most-specific first:
`NodeHash([]) = 0`, `NodeHash(l :: rest) = keccak(NodeHash(rest) ++ keccak(l))`. -/
def namehashLabels : List String → Word256
  | [] => .zero
  | l :: rest => .keccakCat (namehashLabels rest) (labelhash l)

/-- Split a character list on the dot separator; JavaScript
`"".split('.')` yields `[""]`, so the empty list of characters maps to one
empty label. -/
def splitDotChars : List Char → List (List Char)
  | [] => [[]]
  | c :: rest =>
    match splitDotChars rest with
    | [] => [[]]
    | l :: ls => if c = '.' then [] :: l :: ls else (c :: l) :: ls

/-- `name.split('.')` of the source, as a Lean function on strings. -/
def splitLabels (name : String) : List String :=
  (splitDotChars name.data).map (fun l => String.mk l)

/-- Modelled from the spec: the `namehash` helper of `utils/normalise` is
not in the provided slice.  Per the spec, `NodeHash(root)` is the all-zero
word and `NodeHash(label.rest) = keccak(NodeHash(rest) ++ keccak(label))`. -/
def namehash (name : String) : Word256 :=
  if name = "" then .zero else namehashLabels (splitLabels name)

/-- The closed name-type classification of the spec. -/
inductive NameType where
  | tld : NameType
  | eth2ld : NameType
  | ethSubname : NameType
  | otherSubname : NameType
  | unsupported : NameType
deriving DecidableEq

/-- The error taxonomy of the encoder; each constructor carries the
structured detail the source attaches to the thrown error object. -/
inductive EnsError where
  | malformedName : EnsError
  | unsupportedNameType : NameType → EnsError
  | invalidContractType : String → EnsError
  | additionalParameterSpecified : String → EnsError
  | labelTooLong : String → Nat → EnsError
  | genericError : String → EnsError
deriving DecidableEq

/-- Classification of a label list: one label equal to the primary suffix
is the top-level name, one foreign label is unsupported, two labels ending
in the primary suffix are a second-level name, deeper names ending in the
primary suffix are primary-suffix subnames, and any other multi-label name
is a foreign-suffix subname. -/
def classifyLabels : List String → Except EnsError NameType
  | [] => .error .malformedName
  | [l] => if l = "eth" then .ok .tld else .ok .unsupported
  | a :: b :: rest =>
    if (a :: b :: rest).getLastD "" = "eth" then
      if rest.isEmpty then .ok .eth2ld else .ok .ethSubname
    else .ok .otherSubname

/-- Modelled from the spec: `getNameType` of `utils/getNameType` is not in
the provided slice.  Per the spec's NameClassifier, the name is split into
labels, an empty name or empty label fails with `MalformedNameError`, and
the type is derived from the label count and primary-suffix membership. -/
def getNameType (name : String) : Except EnsError NameType :=
  if (splitLabels name).contains "" then .error .malformedName
  else classifyLabels (splitLabels name)

/-- Result of `makeLabelNodeAndParent`: the first label, its label hash,
and the node hash of the remaining (parent) labels. -/
structure LabelNodeAndParent where
  label : String
  labelHash : Word256
  parentNode : Word256
deriving DecidableEq

/-- Modelled from the spec: `makeLabelNodeAndParent` of
`utils/makeLabelNodeAndParent` is not in the provided slice.  Per the spec
it splits off the first label, computes the parent's node hash from the
remaining labels, and fails with `MalformedNameError` when the name has
fewer than two labels. -/
def makeLabelNodeAndParent (name : String) : Except EnsError LabelNodeAndParent :=
  match splitLabels name with
  | [] => .error .malformedName
  | [_] => .error .malformedName
  | l :: b :: rest =>
    .ok { label := l, labelHash := labelhash l, parentNode := namehashLabels (b :: rest) }

/-- An ABI argument value: a 32-byte word (a digest), the integer value of
a digest (the source's `BigInt(hash)`), a numeric literal, an address, a
raw string, or a byte string. -/
inductive AbiValue where
  | word : Word256 → AbiValue
  | uintOfWord : Word256 → AbiValue
  | uint : Nat → AbiValue
  | address : String → AbiValue
  | str : String → AbiValue
  | bytes : String → AbiValue
deriving DecidableEq

/-- The source's `encodeFunctionData` result, kept at the level the claims
speak of: the called function and its argument list. -/
structure FunctionCall where
  functionName : String
  args : List AbiValue
deriving DecidableEq

/-- A `SimpleTransactionRequest`: destination address plus call data. -/
structure TransactionRequest where
  toAddress : String
  data : FunctionCall
deriving DecidableEq

/-- The wallet client: the per-chain contract addresses reachable through
`getChainContractAddress`, and the sender account address. -/
structure Wallet where
  ensRegistry : String
  ensBaseRegistrarImplementation : String
  ensNameWrapper : String
  ensEthRegistrarController : String
  accountAddress : String

/-- Address lookup keyed by the contract identifier, as in
`getChainContractAddress({ client, contract })`. -/
def getChainContractAddress (w : Wallet) (contract : String) : String :=
  if contract = "ensRegistry" then w.ensRegistry
  else if contract = "ensBaseRegistrarImplementation" then w.ensBaseRegistrarImplementation
  else if contract = "ensNameWrapper" then w.ensNameWrapper
  else if contract = "ensEthRegistrarController" then w.ensEthRegistrarController
  else ""

/-- `EMPTY_ADDRESS` of `utils/consts`: the zero address. -/
def EMPTY_ADDRESS : String := "0x0000000000000000000000000000000000000000"

/-- Modelled from the spec: `wrappedLabelLengthCheck` of `utils/wrapper`
is not in the provided slice.  Per the spec, `checkLabelLength` fails with
`LabelTooLongError` when the label's byte length exceeds the wrapping
contract's 255-byte maximum. -/
def wrappedLabelLengthCheck (label : String) : Except EnsError Unit :=
  if label.utf8ByteSize > 255 then .error (.labelTooLong label label.utf8ByteSize)
  else .ok ()

/-- Modelled from the spec: `makeRegistrationTuple` of
`utils/registerHelpers` is not in the provided slice; no claim inspects the
registration tuple, so it is represented opaquely by the registered name. -/
def makeRegistrationTuple (name : String) : List AbiValue := [.str name]

/-- The parameters of `transferName.makeFunctionData`; `contract` is kept
as a string so that the switch's default branch stays reachable, and the
optional boolean flags default to `false` when absent. -/
structure TransferNameDataParameters where
  name : String
  newOwnerAddress : String
  contract : String
  reclaim : Bool
  asParent : Bool

namespace TransferName

/-- `transferName.makeFunctionData` of
`src/packages/ensjs/src/functions/wallet/transferName.ts`. -/
def makeFunctionData (wallet : Wallet) (p : TransferNameDataParameters) :
    Except EnsError TransactionRequest :=
  if p.reclaim = true ∧ p.contract ≠ "registrar" then
    .error (.additionalParameterSpecified "reclaim")
  else if p.contract = "registry" then
    if p.asParent = true then
      match makeLabelNodeAndParent p.name with
      | .error e => .error e
      | .ok lnp =>
        .ok { toAddress := getChainContractAddress wallet "ensRegistry",
              data := { functionName := "setSubnodeOwner",
                        args := [.word lnp.parentNode, .word lnp.labelHash,
                                 .address p.newOwnerAddress] } }
    else
      .ok { toAddress := getChainContractAddress wallet "ensRegistry",
            data := { functionName := "setOwner",
                      args := [.word (namehash p.name), .address p.newOwnerAddress] } }
  else if p.contract = "registrar" then
    if p.asParent = true then
      .error (.additionalParameterSpecified "asParent")
    else
      match getNameType p.name with
      | .error e => .error e
      | .ok nameType =>
        if nameType ≠ .eth2ld then
          .error (.unsupportedNameType nameType)
        else
          .ok { toAddress := getChainContractAddress wallet "ensBaseRegistrarImplementation",
                data :=
                  if p.reclaim = true then
                    { functionName := "reclaim",
                      args := [.uintOfWord (labelhash ((splitLabels p.name).headD "")),
                               .address p.newOwnerAddress] }
                  else
                    { functionName := "safeTransferFrom",
                      args := [.address wallet.accountAddress, .address p.newOwnerAddress,
                               .uintOfWord (labelhash ((splitLabels p.name).headD ""))] } }
  else if p.contract = "nameWrapper" then
    if p.asParent = true then
      match makeLabelNodeAndParent p.name with
      | .error e => .error e
      | .ok lnp =>
        .ok { toAddress := getChainContractAddress wallet "ensNameWrapper",
              data := { functionName := "setSubnodeOwner",
                        args := [.word lnp.parentNode, .str lnp.label,
                                 .address p.newOwnerAddress, .uint 0, .uint 0] } }
    else
      .ok { toAddress := getChainContractAddress wallet "ensNameWrapper",
            data := { functionName := "safeTransferFrom",
                      args := [.address wallet.accountAddress, .address p.newOwnerAddress,
                               .uintOfWord (namehash p.name), .uint 1, .bytes "0x"] } }
  else
    .error (.invalidContractType p.contract)

end TransferName

namespace DeleteSubname

/-- `deleteSubname.makeFunctionData` of `src/unnamed/part_000`. -/
def makeFunctionData (wallet : Wallet) (name : String) (contract : String)
    (asOwner : Bool) : Except EnsError TransactionRequest :=
  match getNameType name with
  | .error e => .error e
  | .ok nameType =>
    if nameType ≠ .ethSubname ∧ nameType ≠ .otherSubname then
      .error (.unsupportedNameType nameType)
    else if contract = "registry" then
      if asOwner = true then
        .ok { toAddress := getChainContractAddress wallet "ensRegistry",
              data := { functionName := "setRecord",
                        args := [.word (namehash name), .address EMPTY_ADDRESS,
                                 .address EMPTY_ADDRESS, .uint 0] } }
      else
        match makeLabelNodeAndParent name with
        | .error e => .error e
        | .ok lnp =>
          .ok { toAddress := getChainContractAddress wallet "ensRegistry",
                data := { functionName := "setSubnodeRecord",
                          args := [.word lnp.parentNode, .word lnp.labelHash,
                                   .address EMPTY_ADDRESS, .address EMPTY_ADDRESS,
                                   .uint 0] } }
    else if contract = "nameWrapper" then
      if asOwner = true then
        .ok { toAddress := getChainContractAddress wallet "ensNameWrapper",
              data := { functionName := "setRecord",
                        args := [.word (namehash name), .address EMPTY_ADDRESS,
                                 .address EMPTY_ADDRESS, .uint 0] } }
      else
        match makeLabelNodeAndParent name with
        | .error e => .error e
        | .ok lnp =>
          .ok { toAddress := getChainContractAddress wallet "ensNameWrapper",
                data := { functionName := "setSubnodeRecord",
                          args := [.word lnp.parentNode, .str lnp.label,
                                   .address EMPTY_ADDRESS, .address EMPTY_ADDRESS,
                                   .uint 0, .uint 0, .uint 0] } }
    else
      .error (.invalidContractType contract)

end DeleteSubname

/-- The return value of `registerName.makeFunctionData`: a transaction
request together with the payment value. -/
structure RegisterReturn where
  toAddress : String
  data : FunctionCall
  value : Nat
deriving DecidableEq

namespace RegisterName

/-- `registerName.makeFunctionData` of the wallet registration module
(the second document of `src/packages/ensjs/src/functions/read/getAddr.test.ts`). -/
def makeFunctionData (wallet : Wallet) (name : String) (value : Nat) :
    Except EnsError RegisterReturn :=
  if (splitLabels name).length ≠ 2 then
    .error (.genericError "Only second level name registration is supported")
  else if (splitLabels name).getD 1 "" ≠ "eth" then
    .error (.genericError "Only .eth name registration is supported")
  else
    match wrappedLabelLengthCheck ((splitLabels name).headD "") with
    | .error e => .error e
    | .ok _ =>
      .ok { toAddress := getChainContractAddress wallet "ensEthRegistrarController",
            data := { functionName := "register", args := makeRegistrationTuple name },
            value := value }

end RegisterName

/-- A concrete wallet used by witnesses and counterexamples. -/
def sampleWallet : Wallet :=
  { ensRegistry := "0x1111111111111111111111111111111111111111",
    ensBaseRegistrarImplementation := "0x2222222222222222222222222222222222222222",
    ensNameWrapper := "0x3333333333333333333333333333333333333333",
    ensEthRegistrarController := "0x4444444444444444444444444444444444444444",
    accountAddress := "0x5555555555555555555555555555555555555555" }

/-- A concrete recipient address used by witnesses and counterexamples. -/
def addrA : String := "0xFe89cc7aBB2C4183683ab71653C4cdc9B02D44b7"

/-- The label-list classifier only fails with `MalformedNameError`. -/
lemma classifyLabels_error (ls : List String) (e : EnsError)
    (h : classifyLabels ls = .error e) : e = .malformedName := by
  rcases ls with _ | ⟨a, _ | ⟨b, rest⟩⟩
  · simpa [classifyLabels] using h.symm
  · simp only [classifyLabels] at h
    split_ifs at h
  · simp only [classifyLabels] at h
    split_ifs at h

/-- The name classifier only fails with `MalformedNameError`. -/
lemma getNameType_error (n : String) (e : EnsError)
    (h : getNameType n = .error e) : e = .malformedName := by
  unfold getNameType at h
  split_ifs at h
  · simpa using h.symm
  · exact classifyLabels_error _ _ h

/-- A name classified `unsupported` has exactly one label. -/
lemma unsupported_single_label (n : String)
    (hc : getNameType n = .ok .unsupported) : ∃ l, splitLabels n = [l] := by
  unfold getNameType at hc
  split_ifs at hc
  rcases hst : splitLabels n with _ | ⟨a, _ | ⟨b, rest⟩⟩ <;> rw [hst] at hc
  · simp [classifyLabels] at hc
  · exact ⟨a, rfl⟩
  · simp only [classifyLabels] at hc
    split_ifs at hc <;> simp at hc

/-- `deleteSubname` rejects every name whose classification is not one of
the two subname types, whatever the contract value. -/
lemma delete_unsupported (w : Wallet) (n c : String) (o : Bool) (t : NameType)
    (hc : getNameType n = .ok t) (h1 : t ≠ .ethSubname) (h2 : t ≠ .otherSubname) :
    DeleteSubname.makeFunctionData w n c o = .error (.unsupportedNameType t) := by
  unfold DeleteSubname.makeFunctionData
  rw [hc]
  simp [h1, h2]

/-- Claim C1: transfer on the registrar contract requires the name to
classify as `eth-2ld`, failing with `UnsupportedNameTypeError` otherwise;
on success with `reclaim = true` the payload targets the registrar address
and calls `reclaim(tokenId, newOwner)` with the token identifier the
integer value of the label hash of the name's first label. -/
theorem registrar_transfer_requires_eth2ld_and_reclaim_payload
    (w : Wallet) (n a l : String) (rest : List String) (r : Bool) (t : NameType)
    (hc : getNameType n = .ok t) (hs : splitLabels n = l :: rest) :
    (t ≠ .eth2ld →
      TransferName.makeFunctionData w ⟨n, a, "registrar", r, false⟩ =
        .error (.unsupportedNameType t)) ∧
    (t = .eth2ld →
      TransferName.makeFunctionData w ⟨n, a, "registrar", true, false⟩ =
        .ok { toAddress := getChainContractAddress w "ensBaseRegistrarImplementation",
              data := { functionName := "reclaim",
                        args := [.uintOfWord (labelhash l), .address a] } }) := by
  constructor
  · intro ht
    unfold TransferName.makeFunctionData
    simp [hc, ht]
  · intro ht
    subst ht
    unfold TransferName.makeFunctionData
    simp [hc, hs]

theorem registrar_transfer_requires_eth2ld_and_reclaim_payload_witness :
    TransferName.makeFunctionData sampleWallet ⟨"example.eth", addrA, "registrar", true, false⟩ =
      .ok { toAddress := getChainContractAddress sampleWallet "ensBaseRegistrarImplementation",
            data := { functionName := "reclaim",
                      args := [.uintOfWord (labelhash "example"), .address addrA] } } :=
  (registrar_transfer_requires_eth2ld_and_reclaim_payload sampleWallet "example.eth" addrA
    "example" ["eth"] true .eth2ld (by decide) (by decide)).2 rfl

/-- Claim C2: transfer on the wrapping contract without `asParent` emits an
ERC-1155 `safeTransferFrom` against the wrapping-contract address, with the
transferred unit identifier the integer value of the node hash of the name
and quantity 1. -/
theorem namewrapper_transfer_erc1155_payload (w : Wallet) (n a : String) :
    TransferName.makeFunctionData w ⟨n, a, "nameWrapper", false, false⟩ =
      .ok { toAddress := getChainContractAddress w "ensNameWrapper",
            data := { functionName := "safeTransferFrom",
                      args := [.address w.accountAddress, .address a,
                               .uintOfWord (namehash n), .uint 1, .bytes "0x"] } } := by
  unfold TransferName.makeFunctionData
  simp

/-- Claim C3: delete on the registry targets the registry address; with
`asOwner = true` it encodes `setRecord` at the node hash of the name with
zeroed owner, resolver and ttl, and otherwise `setSubnodeRecord` at the
parent node hash and first-label hash with the same zeroed arguments. -/
theorem registry_delete_clears_record_and_subnode_record
    (w : Wallet) (n l b : String) (rest : List String) (t : NameType)
    (hc : getNameType n = .ok t) (ht : t = .ethSubname ∨ t = .otherSubname)
    (hs : splitLabels n = l :: b :: rest) :
    DeleteSubname.makeFunctionData w n "registry" true =
      .ok { toAddress := getChainContractAddress w "ensRegistry",
            data := { functionName := "setRecord",
                      args := [.word (namehash n), .address EMPTY_ADDRESS,
                               .address EMPTY_ADDRESS, .uint 0] } } ∧
    DeleteSubname.makeFunctionData w n "registry" false =
      .ok { toAddress := getChainContractAddress w "ensRegistry",
            data := { functionName := "setSubnodeRecord",
                      args := [.word (namehashLabels (b :: rest)), .word (labelhash l),
                               .address EMPTY_ADDRESS, .address EMPTY_ADDRESS,
                               .uint 0] } } := by
  have hnot : ¬(t ≠ .ethSubname ∧ t ≠ .otherSubname) := by
    rcases ht with h | h <;> simp [h]
  constructor <;>
  · unfold DeleteSubname.makeFunctionData
    rw [hc]
    simp [hnot, makeLabelNodeAndParent, hs]

theorem registry_delete_clears_record_and_subnode_record_witness :
    DeleteSubname.makeFunctionData sampleWallet "sub.example.eth" "registry" true =
      .ok { toAddress := getChainContractAddress sampleWallet "ensRegistry",
            data := { functionName := "setRecord",
                      args := [.word (namehash "sub.example.eth"), .address EMPTY_ADDRESS,
                               .address EMPTY_ADDRESS, .uint 0] } } ∧
    DeleteSubname.makeFunctionData sampleWallet "sub.example.eth" "registry" false =
      .ok { toAddress := getChainContractAddress sampleWallet "ensRegistry",
            data := { functionName := "setSubnodeRecord",
                      args := [.word (namehashLabels ["example", "eth"]),
                               .word (labelhash "sub"), .address EMPTY_ADDRESS,
                               .address EMPTY_ADDRESS, .uint 0] } } :=
  registry_delete_clears_record_and_subnode_record sampleWallet "sub.example.eth" "sub"
    "example" ["eth"] .ethSubname (by decide) (Or.inl rfl) (by decide)

/-- Claim C4: `reclaim = true` with any contract other than the registrar
fails with `AdditionalParameterSpecifiedError`, and `asParent = true` with
the registrar contract fails with `AdditionalParameterSpecifiedError`. -/
theorem transfer_reclaim_asparent_flag_legality
    (w : Wallet) (n a c : String) (asP r : Bool) (hcr : c ≠ "registrar") :
    TransferName.makeFunctionData w ⟨n, a, c, true, asP⟩ =
      .error (.additionalParameterSpecified "reclaim") ∧
    TransferName.makeFunctionData w ⟨n, a, "registrar", r, true⟩ =
      .error (.additionalParameterSpecified "asParent") := by
  constructor
  · unfold TransferName.makeFunctionData
    simp [hcr]
  · unfold TransferName.makeFunctionData
    simp

theorem transfer_reclaim_asparent_flag_legality_witness :
    TransferName.makeFunctionData sampleWallet ⟨"example.eth", addrA, "registry", true, false⟩ =
      .error (.additionalParameterSpecified "reclaim") ∧
    TransferName.makeFunctionData sampleWallet ⟨"example.eth", addrA, "registrar", false, true⟩ =
      .error (.additionalParameterSpecified "asParent") :=
  transfer_reclaim_asparent_flag_legality sampleWallet "example.eth" addrA "registry"
    false false (by decide)

/-- Claim C5 counterexample: the name "abc" classifies as `unsupported`,
yet transfer on the registry contract returns a call payload for it rather
than failing. -/
theorem unsupported_name_registry_transfer_payload_counterexample :
    getNameType "abc" = .ok .unsupported ∧
    TransferName.makeFunctionData sampleWallet ⟨"abc", addrA, "registry", false, false⟩ =
      .ok { toAddress := sampleWallet.ensRegistry,
            data := { functionName := "setOwner",
                      args := [.word (namehash "abc"), .address addrA] } } :=
  ⟨by decide, by decide⟩

/-- Claim C5 (amended): for a name classified `unsupported`, the operations
that classify the name — delete on any contract, transfer on the registrar,
and register — fail without returning a payload; transfer on the registry
or wrapping contract does not classify the name. -/
theorem unsupported_name_fails_on_classifying_operations
    (w : Wallet) (n a : String) (hc : getNameType n = .ok .unsupported) :
    (∀ (c : String) (o : Bool),
      DeleteSubname.makeFunctionData w n c o = .error (.unsupportedNameType .unsupported)) ∧
    (∀ r : Bool,
      TransferName.makeFunctionData w ⟨n, a, "registrar", r, false⟩ =
        .error (.unsupportedNameType .unsupported)) ∧
    (∀ v : Nat,
      RegisterName.makeFunctionData w n v =
        .error (.genericError "Only second level name registration is supported")) := by
  refine ⟨fun c o => delete_unsupported w n c o .unsupported hc (by decide) (by decide), ?_, ?_⟩
  · intro r
    unfold TransferName.makeFunctionData
    simp [hc]
  · intro v
    obtain ⟨l, hl⟩ := unsupported_single_label n hc
    unfold RegisterName.makeFunctionData
    rw [hl]
    simp

theorem unsupported_name_fails_on_classifying_operations_witness :
    DeleteSubname.makeFunctionData sampleWallet "abc" "registry" true =
      .error (.unsupportedNameType .unsupported) ∧
    TransferName.makeFunctionData sampleWallet ⟨"abc", addrA, "registrar", false, false⟩ =
      .error (.unsupportedNameType .unsupported) ∧
    RegisterName.makeFunctionData sampleWallet "abc" 0 =
      .error (.genericError "Only second level name registration is supported") :=
  ⟨(unsupported_name_fails_on_classifying_operations sampleWallet "abc" addrA
      (by decide)).1 "registry" true,
   (unsupported_name_fails_on_classifying_operations sampleWallet "abc" addrA
      (by decide)).2.1 false,
   (unsupported_name_fails_on_classifying_operations sampleWallet "abc" addrA
      (by decide)).2.2 0⟩

/-- Claim C6: delete raises `UnsupportedNameTypeError` for every name whose
classification is neither `eth-subname` nor `other-subname`, on both the
registry and the wrapping contract. -/
theorem delete_rejects_non_subnames_on_both_contracts
    (w : Wallet) (n : String) (o : Bool) (t : NameType)
    (hc : getNameType n = .ok t) (h1 : t ≠ .ethSubname) (h2 : t ≠ .otherSubname) :
    DeleteSubname.makeFunctionData w n "registry" o = .error (.unsupportedNameType t) ∧
    DeleteSubname.makeFunctionData w n "nameWrapper" o = .error (.unsupportedNameType t) :=
  ⟨delete_unsupported w n "registry" o t hc h1 h2,
   delete_unsupported w n "nameWrapper" o t hc h1 h2⟩

theorem delete_rejects_non_subnames_on_both_contracts_witness :
    DeleteSubname.makeFunctionData sampleWallet "example.eth" "registry" false =
      .error (.unsupportedNameType .eth2ld) ∧
    DeleteSubname.makeFunctionData sampleWallet "example.eth" "nameWrapper" false =
      .error (.unsupportedNameType .eth2ld) :=
  delete_rejects_non_subnames_on_both_contracts sampleWallet "example.eth" false .eth2ld
    (by decide) (by decide) (by decide)

/-- Claim C7: register emits a payload only for names with exactly two
labels whose final label is `eth`, raising a hard error otherwise, and the
first label's byte length is checked against the wrapping contract's
255-byte maximum, failing with `LabelTooLongError` when exceeded. -/
theorem register_requires_eth_2ld_and_label_length (w : Wallet) (n : String) (v : Nat) :
    (∀ p, RegisterName.makeFunctionData w n v = .ok p →
      (splitLabels n).length = 2 ∧ (splitLabels n).getD 1 "" = "eth" ∧
        ((splitLabels n).headD "").utf8ByteSize ≤ 255) ∧
    ((splitLabels n).length ≠ 2 ∨ (splitLabels n).getD 1 "" ≠ "eth" →
      ∃ msg, RegisterName.makeFunctionData w n v = .error (.genericError msg)) ∧
    ((splitLabels n).length = 2 → (splitLabels n).getD 1 "" = "eth" →
      255 < ((splitLabels n).headD "").utf8ByteSize →
      RegisterName.makeFunctionData w n v =
        .error (.labelTooLong ((splitLabels n).headD "")
          (((splitLabels n).headD "").utf8ByteSize))) := by
  refine ⟨?_, ?_, ?_⟩
  · intro p hp
    unfold RegisterName.makeFunctionData wrappedLabelLengthCheck at hp
    split_ifs at hp with h1 h2 h3
    push_neg at h1 h2
    exact ⟨h1, h2, Nat.le_of_not_lt h3⟩
  · intro h
    unfold RegisterName.makeFunctionData
    rcases h with h | h
    · exact ⟨_, by rw [if_pos h]⟩
    · by_cases h1 : (splitLabels n).length = 2
      · exact ⟨_, by rw [if_neg (not_not_intro h1), if_pos h]⟩
      · exact ⟨_, by rw [if_pos h1]⟩
  · intro h1 h2 h3
    unfold RegisterName.makeFunctionData wrappedLabelLengthCheck
    rw [if_neg (not_not_intro h1), if_neg (not_not_intro h2), if_pos h3]

theorem register_requires_eth_2ld_and_label_length_witness :
    ∃ msg, RegisterName.makeFunctionData sampleWallet "abc" 0 =
      .error (.genericError msg) :=
  (register_requires_eth_2ld_and_label_length sampleWallet "abc" 0).2.1 (Or.inl (by decide))

/-- Claim C8: delete on the wrapping contract targets the wrapping-contract
address; with `asOwner = true` it encodes `setRecord` at the node hash of
the name, and otherwise the richer `setSubnodeRecord` whose
permission-bitmask (fuses) and expiry fields are both zero in addition to
the zeroed owner, resolver and ttl arguments. -/
theorem namewrapper_delete_zeroed_fuses_and_expiry
    (w : Wallet) (n l b : String) (rest : List String) (t : NameType)
    (hc : getNameType n = .ok t) (ht : t = .ethSubname ∨ t = .otherSubname)
    (hs : splitLabels n = l :: b :: rest) :
    DeleteSubname.makeFunctionData w n "nameWrapper" true =
      .ok { toAddress := getChainContractAddress w "ensNameWrapper",
            data := { functionName := "setRecord",
                      args := [.word (namehash n), .address EMPTY_ADDRESS,
                               .address EMPTY_ADDRESS, .uint 0] } } ∧
    DeleteSubname.makeFunctionData w n "nameWrapper" false =
      .ok { toAddress := getChainContractAddress w "ensNameWrapper",
            data := { functionName := "setSubnodeRecord",
                      args := [.word (namehashLabels (b :: rest)), .str l,
                               .address EMPTY_ADDRESS, .address EMPTY_ADDRESS,
                               .uint 0, .uint 0, .uint 0] } } := by
  have hnot : ¬(t ≠ .ethSubname ∧ t ≠ .otherSubname) := by
    rcases ht with h | h <;> simp [h]
  constructor <;>
  · unfold DeleteSubname.makeFunctionData
    rw [hc]
    simp [hnot, makeLabelNodeAndParent, hs]

theorem namewrapper_delete_zeroed_fuses_and_expiry_witness :
    DeleteSubname.makeFunctionData sampleWallet "sub.example.eth" "nameWrapper" true =
      .ok { toAddress := getChainContractAddress sampleWallet "ensNameWrapper",
            data := { functionName := "setRecord",
                      args := [.word (namehash "sub.example.eth"), .address EMPTY_ADDRESS,
                               .address EMPTY_ADDRESS, .uint 0] } } ∧
    DeleteSubname.makeFunctionData sampleWallet "sub.example.eth" "nameWrapper" false =
      .ok { toAddress := getChainContractAddress sampleWallet "ensNameWrapper",
            data := { functionName := "setSubnodeRecord",
                      args := [.word (namehashLabels ["example", "eth"]), .str "sub",
                               .address EMPTY_ADDRESS, .address EMPTY_ADDRESS,
                               .uint 0, .uint 0, .uint 0] } } :=
  namewrapper_delete_zeroed_fuses_and_expiry sampleWallet "sub.example.eth" "sub"
    "example" ["eth"] .ethSubname (by decide) (Or.inl rfl) (by decide)

/-- Claim C9 counterexample: with an unrecognized contract value and
`reclaim = true`, transfer raises `AdditionalParameterSpecifiedError`, not
`InvalidContractTypeError`. -/
theorem invalid_contract_with_reclaim_counterexample :
    TransferName.makeFunctionData sampleWallet
        ⟨"example.eth", addrA, "foobar", true, false⟩ =
      .error (.additionalParameterSpecified "reclaim") ∧
    TransferName.makeFunctionData sampleWallet
        ⟨"example.eth", addrA, "foobar", true, false⟩ ≠
      .error (.invalidContractType "foobar") :=
  ⟨by decide, by decide⟩

/-- Claim C9 (amended): an unrecognized contract value falls through to
`InvalidContractTypeError` once the operation's earlier guards pass: on
transfer when `reclaim` is not set (`reclaim = true` raises
`AdditionalParameterSpecifiedError` first), and on delete when the name
classifies as a subname (the name-type check comes first). -/
theorem invalid_contract_fallthrough_after_earlier_guards
    (w : Wallet) (n a c : String) (asP o : Bool) (t : NameType)
    (h1 : c ≠ "registry") (h2 : c ≠ "registrar") (h3 : c ≠ "nameWrapper") :
    TransferName.makeFunctionData w ⟨n, a, c, false, asP⟩ =
      .error (.invalidContractType c) ∧
    TransferName.makeFunctionData w ⟨n, a, c, true, asP⟩ =
      .error (.additionalParameterSpecified "reclaim") ∧
    (getNameType n = .ok t → (t = .ethSubname ∨ t = .otherSubname) →
      DeleteSubname.makeFunctionData w n c o = .error (.invalidContractType c)) := by
  refine ⟨?_, ?_, ?_⟩
  · unfold TransferName.makeFunctionData
    simp [h1, h2, h3]
  · unfold TransferName.makeFunctionData
    simp [h2]
  · intro hc ht
    have hnot : ¬(t ≠ .ethSubname ∧ t ≠ .otherSubname) := by
      rcases ht with h | h <;> simp [h]
    unfold DeleteSubname.makeFunctionData
    rw [hc]
    simp [hnot, h1, h3]

theorem invalid_contract_fallthrough_after_earlier_guards_witness :
    TransferName.makeFunctionData sampleWallet
        ⟨"sub.example.eth", addrA, "controller", false, false⟩ =
      .error (.invalidContractType "controller") ∧
    DeleteSubname.makeFunctionData sampleWallet "sub.example.eth" "controller" false =
      .error (.invalidContractType "controller") :=
  ⟨(invalid_contract_fallthrough_after_earlier_guards sampleWallet "sub.example.eth" addrA
      "controller" false false .ethSubname (by decide) (by decide) (by decide)).1,
   (invalid_contract_fallthrough_after_earlier_guards sampleWallet "sub.example.eth" addrA
      "controller" false false .ethSubname (by decide) (by decide) (by decide)).2.2
     (by decide) (Or.inl rfl)⟩

/-- Claim C10: delete validates the name type before dispatching on the
contract value: any name not classifying as a subname fails with
`UnsupportedNameTypeError` for every contract value, and
`InvalidContractTypeError` is only reachable for names classifying as
subnames. -/
theorem delete_nametype_check_precedes_contract_dispatch
    (w : Wallet) (n c : String) (o : Bool) :
    (∀ t, getNameType n = .ok t → t ≠ .ethSubname → t ≠ .otherSubname →
      DeleteSubname.makeFunctionData w n c o = .error (.unsupportedNameType t)) ∧
    (DeleteSubname.makeFunctionData w n c o = .error (.invalidContractType c) →
      ∃ t, getNameType n = .ok t ∧ (t = .ethSubname ∨ t = .otherSubname)) := by
  constructor
  · exact fun t hc h1 h2 => delete_unsupported w n c o t hc h1 h2
  · intro h
    rcases hg : getNameType n with e | t
    · have he := getNameType_error n e hg
      subst he
      unfold DeleteSubname.makeFunctionData at h
      rw [hg] at h
      simp at h
    · by_cases hsub : t = .ethSubname ∨ t = .otherSubname
      · exact ⟨t, rfl, hsub⟩
      · push_neg at hsub
        rw [delete_unsupported w n c o t hg hsub.1 hsub.2] at h
        simp at h

theorem delete_nametype_check_precedes_contract_dispatch_witness :
    DeleteSubname.makeFunctionData sampleWallet "example.eth" "controller" false =
      .error (.unsupportedNameType .eth2ld) :=
  (delete_nametype_check_precedes_contract_dispatch sampleWallet "example.eth" "controller"
    false).1 .eth2ld (by decide) (by decide) (by decide)

end EnsEmbed
